import Mathlib

/-!
# Verification of the go-bluesky session/credential lifecycle manager

A shallow embedding of the client implementation (package bluesky): the
JWT claims parser, the refresh policy, the refresh executor, the
scheduler loop step, Close/Ready, Dial construction, and the
single-flight async-refresh guard.

Modelling conventions:
* `time.Time` and `time.Duration` values are `Int` nanoseconds
  (`time.Unix(sec, 0)` becomes `sec * 1000000000`).  Go's
  `Time.Before`/`Time.After` are strict `<`/`>` on these integers, and
  `Time.Sub` is subtraction (`Sub` saturates at the `int64` bounds in Go,
  which never changes the outcome of the threshold comparisons modelled
  here, so plain subtraction is faithful).
* Go errors are an explicit inductive type; the sentinel value
  `ErrSessionExpired` and the error produced by wrapping it with
  `fmt.Errorf("%w: ...")` are distinct constructors, because the
  code compares errors with `==` (pointer identity), which only the
  bare sentinel satisfies.
* A Go function that can panic returns a `ParseOutcome`/`Option` with an
  explicit panic case.
* Calls into the external transport (`atproto.ServerRefreshSession`,
  `atproto.ServerDescribeServer`) are modelled by passing the call's
  outcome as an argument.
-/

/-- Nanoseconds per minute: Go `time.Minute` as an `Int` of nanoseconds. -/
def nsPerMinute : Int := 60 * 1000000000

/-- `jwtAsyncRefreshThreshold = 5 * time.Minute`: remaining validity below
which a background (async) refresh is triggered. -/
def jwtAsyncRefreshThreshold : Int := 5 * nsPerMinute

/-- `jwtSyncRefreshThreshold = 2 * time.Minute`: remaining validity below
which a blocking (sync) refresh is triggered. -/
def jwtSyncRefreshThreshold : Int := 2 * nsPerMinute

/-- `time.Unix(sec, 0)` as nanoseconds. -/
def unixToNs (sec : Int) : Int := sec * 1000000000

/-- The client's error values.  `errSessionExpired` is the sentinel
`ErrSessionExpired`; `sessionExpiredWrapped` is
`fmt.Errorf("%w: refresh token was valid until %v", ErrSessionExpired, t)`,
a distinct value that is not `==`-equal to the sentinel.
`masterCredentialsRejected` is
`fmt.Errorf("%w: %w", ErrLoginUnauthorized, ErrMasterCredentials)`. -/
inductive BskyError where
  | errSessionExpired
  | sessionExpiredWrapped (validUntilNs : Int)
  | masterCredentialsRejected
  | decodingError
  | claimsParseError
  | emptyExpiration
  | transportError (msg : String)
deriving Repr, DecidableEq

/-- Outcome of a Go function returning `(*T, error)` that may also panic. -/
inductive ParseOutcome (α : Type) where
  | ok (val : α)
  | err (e : BskyError)
  | panicked
deriving Repr, DecidableEq

/-- `atProtoClaims`: the decoded JWT payload struct.  Field names keep the
Go names; the JSON keys are "scope", "sub", "iat", "exp", "aud". -/
structure atProtoClaims where
  scope : String
  sub : String
  issuedAt : Int
  expiresAt : Int
  audience : String
deriving Repr, DecidableEq

/-- The Go zero value of `atProtoClaims`, which `json.Unmarshal` starts
from (fields absent from the payload stay at their zero values). -/
def zeroClaims : atProtoClaims :=
  { scope := "", sub := "", issuedAt := 0, expiresAt := 0, audience := "" }

/-- `strings.Split(s, ".")` on the character list of `s`: splits at every
dot; always returns at least one (possibly empty) segment. -/
def splitOnDot : List Char → List (List Char)
  | [] => [[]]
  | c :: rest =>
    let r := splitOnDot rest
    if c = '.' then [] :: r
    else
      match r with
      | [] => [[c]]
      | h :: t => (c :: h) :: t

/-- Value of one character in the base64url alphabet (`A-Z a-z 0-9 - _`),
`none` for a character outside it (Go reports a `CorruptInputError`). -/
def b64Val (c : Char) : Option Nat :=
  let n := c.toNat
  if 65 ≤ n ∧ n ≤ 90 then some (n - 65)
  else if 97 ≤ n ∧ n ≤ 122 then some (n - 97 + 26)
  else if 48 ≤ n ∧ n ≤ 57 then some (n - 48 + 52)
  else if n = 45 then some 62
  else if n = 95 then some 63
  else none

/-- Map every character of the segment to its 6-bit value. -/
def b64Vals : List Char → Option (List Nat)
  | [] => some []
  | c :: rest =>
    match b64Val c, b64Vals rest with
    | some v, some vs => some (v :: vs)
    | _, _ => none

/-- Reassemble 6-bit values into bytes, four values to three bytes, with
Go's unpadded (`Raw`) tail handling: a tail of two values yields one byte,
three values yield two bytes, a single value is an error.  Like Go's
default (non-`Strict`) decoder, trailing bits are discarded unchecked. -/
def b64Groups : List Nat → Option (List Nat)
  | [] => some []
  | [_] => none
  | [a, b] => some [(a * 64 + b) / 16]
  | [a, b, c] =>
    let n := (a * 64 + b) * 64 + c
    some [n / 1024, (n / 4) % 256]
  | a :: b :: c :: d :: rest =>
    let n := ((a * 64 + b) * 64 + c) * 64 + d
    match b64Groups rest with
    | some bs => some (n / 65536 :: (n / 256) % 256 :: n % 256 :: bs)
    | none => none

/-- `base64.RawURLEncoding.DecodeString`: decoded bytes are returned as
characters of the corresponding code points (the payloads consumed here
are ASCII, where this agrees with Go's byte slices). -/
def base64RawURLDecode (cs : List Char) : Option (List Char) :=
  match b64Vals cs with
  | none => none
  | some vs =>
    match b64Groups vs with
    | none => none
    | some bytes => some (bytes.map Char.ofNat)

/-- JSON whitespace skipping, as Go's decoder does around tokens. -/
def skipWs : List Char → List Char
  | [] => []
  | c :: rest =>
    if c = ' ' ∨ c = '\t' ∨ c = '\n' ∨ c = '\r' then skipWs rest
    else c :: rest

/-- Body of a JSON string after its opening quote: plain characters up to
the closing quote.  Escapes and raw control characters are rejected
(a conservative restriction of Go's decoder; the claim payloads used in
this development contain neither). -/
def parseJStringBody : List Char → Option (List Char × List Char)
  | [] => none
  | c :: rest =>
    if c = '"' then some ([], rest)
    else if c = '\\' ∨ c.toNat < 32 then none
    else
      match parseJStringBody rest with
      | some (s, r) => some (c :: s, r)
      | none => none

/-- Whether a character is an ASCII digit. -/
def isAsciiDigit (c : Char) : Bool := 48 ≤ c.toNat ∧ c.toNat ≤ 57

/-- Consume a maximal run of digits. -/
def takeDigits : List Char → List Char × List Char
  | [] => ([], [])
  | c :: rest =>
    if isAsciiDigit c then
      let (ds, r) := takeDigits rest
      (c :: ds, r)
    else ([], c :: rest)

/-- Numeric value of a digit run. -/
def digitsVal (ds : List Char) : Nat :=
  ds.foldl (fun acc c => acc * 10 + (c.toNat - 48)) 0

/-- A JSON number with a leading zero ("01") is invalid. -/
def leadingZero : List Char → Bool
  | '0' :: _ :: _ => true
  | _ => false

/-- Largest `int64`, the bound Go enforces when unmarshalling a JSON
number into an `int64` field. -/
def int64Max : Int := 9223372036854775807

/-- Smallest `int64`. -/
def int64Min : Int := -9223372036854775808

/-- A JSON integer (optional minus sign, digits, no leading zero), within
the `int64` range.  Non-integer numbers (fractions, exponents) are left
unconsumed and so fail the surrounding member parse, as Go fails to
unmarshal them into an `int64` field. -/
def parseJNumber (cs : List Char) : Option (Int × List Char) :=
  match cs with
  | '-' :: rest =>
    match takeDigits rest with
    | ([], _) => none
    | (ds, r) =>
      if leadingZero ds then none
      else
        let n : Int := -(digitsVal ds : Int)
        if n < int64Min then none else some (n, r)
  | _ =>
    match takeDigits cs with
    | ([], _) => none
    | (ds, r) =>
      if leadingZero ds then none
      else
        let n : Int := (digitsVal ds : Int)
        if int64Max < n then none else some (n, r)

/-- A JSON member value: a string or an integer.  (Restriction of the Go
decoder: nested values are rejected rather than skipped.) -/
inductive JVal where
  | jstr (s : String)
  | jint (n : Int)
deriving Repr, DecidableEq

/-- Parse one JSON value. -/
def parseJValue (cs : List Char) : Option (JVal × List Char) :=
  match cs with
  | '"' :: rest =>
    match parseJStringBody rest with
    | some (s, r) => some (JVal.jstr (String.mk s), r)
    | none => none
  | _ =>
    match parseJNumber cs with
    | some (n, r) => some (JVal.jint n, r)
    | none => none

/-- Assign one decoded member to the matching struct field, as
`json.Unmarshal` does: the five tagged keys set their field (a value of
the wrong type is an unmarshal error), an unknown key is ignored, a
repeated key overwrites. -/
def applyField (claims : atProtoClaims) (key : String) (v : JVal) :
    Option atProtoClaims :=
  if key = "scope" then
    match v with
    | JVal.jstr s => some { claims with scope := s }
    | _ => none
  else if key = "sub" then
    match v with
    | JVal.jstr s => some { claims with sub := s }
    | _ => none
  else if key = "iat" then
    match v with
    | JVal.jint n => some { claims with issuedAt := n }
    | _ => none
  else if key = "exp" then
    match v with
    | JVal.jint n => some { claims with expiresAt := n }
    | _ => none
  else if key = "aud" then
    match v with
    | JVal.jstr s => some { claims with audience := s }
    | _ => none
  else some claims

/-- The members of a JSON object, after its opening brace (or after a
comma): `"key" : value` pairs folded into the claims struct, ending at
the closing brace.  Fuelled recursion; each step consumes at least one
character, so fuel `length + 1` suffices. -/
def parseMembers : Nat → atProtoClaims → List Char → Option (atProtoClaims × List Char)
  | 0, _, _ => none
  | fuel + 1, claims, cs =>
    match skipWs cs with
    | '"' :: rest =>
      match parseJStringBody rest with
      | none => none
      | some (key, r1) =>
        match skipWs r1 with
        | ':' :: r2 =>
          match parseJValue (skipWs r2) with
          | none => none
          | some (v, r3) =>
            match applyField claims (String.mk key) v with
            | none => none
            | some claims2 =>
              match skipWs r3 with
              | ',' :: r4 => parseMembers fuel claims2 r4
              | '}' :: r4 => some (claims2, r4)
              | _ => none
        | _ => none
    | _ => none

/-- `json.Unmarshal(payload, &claims)` for a flat JSON object: starts from
the zero-valued struct, requires a single top-level object followed only
by whitespace. -/
def jsonUnmarshalClaims (payload : List Char) : Option atProtoClaims :=
  match skipWs payload with
  | '{' :: rest =>
    match skipWs rest with
    | '}' :: tail => if skipWs tail = [] then some zeroClaims else none
    | _ =>
      match parseMembers (payload.length + 1) zeroClaims rest with
      | some (claims, tail) => if skipWs tail = [] then some claims else none
      | none => none
  | _ => none

/-- `parseATProtoClaims(jwt)`: split the token at dots, base64url-decode
segment 1, unmarshal the claims, reject a zero expiration.  The Go code
indexes `parts[1]` without a length check, so a token with no dot (one
segment) panics with an index-out-of-range runtime error rather than
returning an error. -/
def parseATProtoClaims (jwt : String) : ParseOutcome atProtoClaims :=
  match splitOnDot jwt.data with
  | _ :: seg :: _ =>
    match base64RawURLDecode seg with
    | none => ParseOutcome.err BskyError.decodingError
    | some payload =>
      match jsonUnmarshalClaims payload with
      | none => ParseOutcome.err BskyError.claimsParseError
      | some claims =>
        if claims.expiresAt = 0 then ParseOutcome.err BskyError.emptyExpiration
        else ParseOutcome.ok claims
  | _ => ParseOutcome.panicked

/-- `parseAccessJwtClaims(jwt)`: the scope-checked access-token entry
point; rejects claims whose scope is not "com.atproto.appPass". -/
def parseAccessJwtClaims (jwt : String) : ParseOutcome atProtoClaims :=
  match parseATProtoClaims jwt with
  | ParseOutcome.ok claims =>
    if claims.scope ≠ "com.atproto.appPass" then
      ParseOutcome.err BskyError.masterCredentialsRejected
    else ParseOutcome.ok claims
  | ParseOutcome.err e => ParseOutcome.err e
  | ParseOutcome.panicked => ParseOutcome.panicked

/-- `parseRefreshJwtClaims(jwt)`: the refresh-token entry point; no scope
check. -/
def parseRefreshJwtClaims (jwt : String) : ParseOutcome atProtoClaims :=
  parseATProtoClaims jwt

/-- `xrpc.AuthInfo`: the credential slot stored on the transport client. -/
structure AuthInfo where
  accessJwt : String
  refreshJwt : String
  handle : String
  did : String
deriving Repr, DecidableEq

/-- The body of a successful `createSession`/`refreshSession` reply. -/
structure SessionResponse where
  accessJwt : String
  refreshJwt : String
  handle : String
  did : String
deriving Repr, DecidableEq

/-- The mutable fields of the `client` struct that the session lifecycle
reads and writes: the ready flag, the credential slot (`c.client.Auth`,
`none` while unauthenticated), both expirations, the occupancy of the
capacity-1 `jwtAsyncRefresh` channel, and whether the
`jwtRefresherStop` channel is non-nil. -/
structure ClientState where
  ready : Bool
  auth : Option AuthInfo
  accessJwtExpire : Int
  refreshJwtExpire : Int
  asyncRefreshBusy : Bool
  refresherStop : Bool
deriving Repr, DecidableEq

/-- `Ready()`. -/
def clientReady (st : ClientState) : Bool := st.ready

/-- `refreshJWT()`: under the exclusive lock, re-check the refresh
token's expiry (strict `Now().After`), issue the remote refresh call
(its outcome is the `resp` argument), parse both returned tokens with
the unchecked `parseATProtoClaims`, and on success replace the
credential slot and both expirations wholesale.  Every error path
returns the state unchanged; `none` models a panic escaping from the
claims parser. -/
def refreshJWT (st : ClientState) (now : Int)
    (resp : Except String SessionResponse) :
    Option (ClientState × Option BskyError) :=
  if st.refreshJwtExpire < now then
    some (st, some (BskyError.sessionExpiredWrapped st.refreshJwtExpire))
  else
    match resp with
    | Except.error msg => some (st, some (BskyError.transportError msg))
    | Except.ok sess =>
      match parseATProtoClaims sess.refreshJwt with
      | ParseOutcome.panicked => none
      | ParseOutcome.err e => some (st, some e)
      | ParseOutcome.ok refreshTokenClaims =>
        match parseATProtoClaims sess.accessJwt with
        | ParseOutcome.panicked => none
        | ParseOutcome.err e => some (st, some e)
        | ParseOutcome.ok accessTokenClaims =>
          some
            ({ st with
               auth := some
                 { accessJwt := sess.accessJwt, refreshJwt := sess.refreshJwt,
                   handle := sess.handle, did := sess.did },
               accessJwtExpire := unixToNs accessTokenClaims.expiresAt,
               refreshJwtExpire := unixToNs refreshTokenClaims.expiresAt },
             none)

/-- The four outcomes of the refresh policy decision in
`maybeRefreshJWT`. -/
inductive RefreshAction where
  | expired
  | syncRefresh
  | asyncRefresh
  | noAction
deriving Repr, DecidableEq

/-- The decision step of `maybeRefreshJWT`: the three window tests
(`refreshJwtExpire.Before(now)`, `accessJwtExpire.Sub(now)` against the
sync and async thresholds) and their branch order, together with the
expired branch's write of `c.ready = false`.  Both clock reads of the
source (lines 308 and 309) are modelled as the same instant `now`. -/
def maybeRefreshCheck (st : ClientState) (now : Int) :
    RefreshAction × ClientState :=
  let invalidRefreshJwt := st.refreshJwtExpire < now
  let needSyncRefresh := st.accessJwtExpire - now < jwtSyncRefreshThreshold
  let needAsyncRefresh := st.accessJwtExpire - now < jwtAsyncRefreshThreshold
  if invalidRefreshJwt then (RefreshAction.expired, { st with ready := false })
  else if needSyncRefresh then (RefreshAction.syncRefresh, st)
  else if needAsyncRefresh then (RefreshAction.asyncRefresh, st)
  else (RefreshAction.noAction, st)

/-- `maybeRefreshJWT()`: act on the decision.  `refreshNow` is the
clock value the executor reads under the lock (the clock may have
advanced past `now`); `resp` the remote call's outcome when one is
made.  The returned flag records whether a background refresh goroutine
was spawned (the async branch's non-blocking send on the capacity-1
`jwtAsyncRefresh` channel succeeded). -/
def maybeRefreshJWT (st : ClientState) (now refreshNow : Int)
    (resp : Except String SessionResponse) :
    Option (ClientState × Option BskyError × Bool) :=
  match maybeRefreshCheck st now with
  | (RefreshAction.expired, st2) =>
    some (st2, some BskyError.errSessionExpired, false)
  | (RefreshAction.syncRefresh, st2) =>
    match refreshJWT st2 refreshNow resp with
    | none => none
    | some (st3, e) => some (st3, e, false)
  | (RefreshAction.asyncRefresh, st2) =>
    if st2.asyncRefreshBusy then some (st2, none, false)
    else some ({ st2 with asyncRefreshBusy := true }, none, true)
  | (RefreshAction.noAction, st2) => some (st2, none, false)

/-- The body of the goroutine spawned by the async branch: run
`refreshJWT` (logging any error), then receive from `jwtAsyncRefresh`,
releasing the guard whether the refresh succeeded or failed. -/
def asyncRefreshTask (st : ClientState) (now : Int)
    (resp : Except String SessionResponse) : Option ClientState :=
  match refreshJWT st now resp with
  | none => none
  | some (st2, _) => some { st2 with asyncRefreshBusy := false }

/-- How one iteration of the `refresher` loop ends. -/
inductive LoopOutcome where
  | continues (st : ClientState)
  | terminatedExpired (st : ClientState)
  | stoppedByClose (st : ClientState)
  | panicked
deriving Repr, DecidableEq

/-- One iteration of `refresher`: run `maybeRefreshJWT`, exit permanently
when the returned error `==`-equals the sentinel `ErrSessionExpired`
(Go's `err == ErrSessionExpired` compares error identity, so the
executor's wrapped session-expired error does not match), then wait on
the timer or on a stop request. -/
def refresherStep (st : ClientState) (now refreshNow : Int)
    (resp : Except String SessionResponse) (stopRequested : Bool) :
    LoopOutcome :=
  match maybeRefreshJWT st now refreshNow resp with
  | none => LoopOutcome.panicked
  | some (st2, e, _) =>
    if e = some BskyError.errSessionExpired then LoopOutcome.terminatedExpired st2
    else if stopRequested then LoopOutcome.stoppedByClose st2
    else LoopOutcome.continues st2

/-- `Close()`: when the stop channel is non-nil, perform the two-phase
handshake with the refresher and nil the channel; always clear the ready
flag and return nil.  The result is (new state, returned error, whether
a shutdown handshake was performed). -/
def closeClient (st : ClientState) : ClientState × Option BskyError × Bool :=
  if st.refresherStop then
    ({ st with refresherStop := false, ready := false }, none, true)
  else ({ st with ready := false }, none, false)

/-- `DialWithClient`: run the connectivity sanity check
(`ServerDescribeServer`, outcome passed as the argument) and on success
return a bare client: no login, no credential slot, no refresher, zero
expirations, not ready. -/
def dialWithClient (describeResult : Except String Unit) :
    Option ClientState :=
  match describeResult with
  | Except.error _ => none
  | Except.ok _ =>
    some
      { ready := false, auth := none, accessJwtExpire := 0,
        refreshJwtExpire := 0, asyncRefreshBusy := false,
        refresherStop := false }

/-- `Dial`: `DialWithClient` with a fresh default HTTP client. -/
def dial (describeResult : Except String Unit) : Option ClientState :=
  dialWithClient describeResult

/-- `time.Duration.Microseconds()`: whole microseconds, Go integer
division truncating toward zero. -/
def goDurationMicroseconds (d : Int) : Int := Int.tdiv d 1000

/-- The refresher-pause defaulting in `NewClient`: a configured pause
whose whole-microsecond count is zero is treated as unset and replaced
by `5 * time.Minute`. -/
def newClientRefresherPause (configured : Int) : Int :=
  if goDurationMicroseconds configured = 0 then 5 * nsPerMinute
  else configured

/-- State of the single-flight guard subsystem: the occupancy of the
capacity-1 `jwtAsyncRefresh` channel, how many background refresh
goroutines are currently running, and how many were ever spawned (each
spawned goroutine issues one refresh call). -/
structure AsyncGuardState where
  guardHeld : Bool
  inflight : Nat
  spawned : Nat
deriving Repr, DecidableEq

/-- Events of the single-flight subsystem: a policy evaluation reaching
the async branch, and the completion (with success or failure) of the
in-flight background refresh. -/
inductive AsyncEvent where
  | trigger
  | complete (success : Bool)
deriving Repr, DecidableEq

/-- One event of the single-flight subsystem.  A trigger mirrors the
async branch's select: the non-blocking send succeeds only when the
channel is empty, and only then is a goroutine spawned; when the guard
is already held the branch skips.  A completion mirrors the end of the
spawned goroutine: the receive empties the channel regardless of the
refresh outcome; with no goroutine running the event is a no-op. -/
def asyncStep (s : AsyncGuardState) : AsyncEvent → AsyncGuardState
  | AsyncEvent.trigger =>
    if s.guardHeld then s
    else
      { guardHeld := true, inflight := s.inflight + 1,
        spawned := s.spawned + 1 }
  | AsyncEvent.complete _ =>
    if s.inflight = 0 then s
    else { guardHeld := false, inflight := s.inflight - 1, spawned := s.spawned }

/-- The guard state at client construction: `newClientInternal` creates
`jwtAsyncRefresh` as an empty capacity-1 channel. -/
def asyncInit : AsyncGuardState :=
  { guardHeld := false, inflight := 0, spawned := 0 }

/-- The guard state after a sequence of events from construction. -/
def asyncRun (events : List AsyncEvent) : AsyncGuardState :=
  events.foldl asyncStep asyncInit

/-- A well-formed token (as the test helpers build them:
`header.<base64url payload>.signature`) whose payload is
the flat JSON object with scope "x" and exp 1. -/
def tokenScopeX : String := "header.eyJzY29wZSI6IngiLCJleHAiOjF9.signature"

/-- The claims carried by `tokenScopeX`. -/
def claimsScopeX : atProtoClaims :=
  { scope := "x", sub := "", issuedAt := 0, expiresAt := 1, audience := "" }

/-- A client state whose refresh token expires exactly at instant 0 and
whose access token expires one minute later. -/
def c1State : ClientState :=
  { ready := true, auth := none, accessJwtExpire := 60000000000,
    refreshJwtExpire := 0, asyncRefreshBusy := false, refresherStop := true }

/-- A logged-in client state with an old credential slot, access token
already expired, refresh token expiring at instant 1000000000. -/
def c3State : ClientState :=
  { ready := true,
    auth := some
      { accessJwt := "oldAccess", refreshJwt := "oldRefresh",
        handle := "old.handle", did := "did:old" },
    accessJwtExpire := 0, refreshJwtExpire := 1000000000,
    asyncRefreshBusy := false, refresherStop := true }

/-- A refresh reply whose access and refresh tokens both carry scope
"x" (not the application-password tag). -/
def c3Response : SessionResponse :=
  { accessJwt := tokenScopeX, refreshJwt := tokenScopeX,
    handle := "test.bsky.social", did := "did:plc:test" }

/-- The client state after `refreshJWT c3State 0 (.ok c3Response)`:
credential slot and both expirations replaced from the reply. -/
def c3PostState : ClientState :=
  { ready := true,
    auth := some
      { accessJwt := tokenScopeX, refreshJwt := tokenScopeX,
        handle := "test.bsky.social", did := "did:plc:test" },
    accessJwtExpire := 1000000000, refreshJwtExpire := 1000000000,
    asyncRefreshBusy := false, refresherStop := true }

/-- A client state whose access and refresh tokens both expire exactly
at instant 0. -/
def c4State : ClientState :=
  { ready := true, auth := none, accessJwtExpire := 0, refreshJwtExpire := 0,
    asyncRefreshBusy := false, refresherStop := true }

/-- The bare client state `DialWithClient` constructs on a successful
connectivity check. -/
def dialedState : ClientState :=
  { ready := false, auth := none, accessJwtExpire := 0,
    refreshJwtExpire := 0, asyncRefreshBusy := false,
    refresherStop := false }

/-- The only errors the unchecked parser returns are its three own
parse failures. -/
theorem parseATProtoClaims_err_cases (jwt : String) (e : BskyError)
    (h : parseATProtoClaims jwt = ParseOutcome.err e) :
    e = BskyError.decodingError ∨ e = BskyError.claimsParseError ∨
      e = BskyError.emptyExpiration := by
  unfold parseATProtoClaims at h
  split at h
  · split at h
    · cases h
      simp
    · split at h
      · cases h
        simp
      · split at h
        · cases h
          simp
        · cases h
  · cases h

/-- The unchecked parser never produces the master-credentials
rejection: that error exists only on the access-token entry point. -/
theorem parseATProtoClaims_ne_masterCredentials (jwt : String) :
    parseATProtoClaims jwt ≠ ParseOutcome.err BskyError.masterCredentialsRejected := by
  intro h
  rcases parseATProtoClaims_err_cases jwt _ h with h1 | h1 | h1 <;> cases h1

/-- Claims returned by a successful parse carry a non-zero expiration. -/
theorem parseATProtoClaims_ok_exp_ne_zero (jwt : String) (claims : atProtoClaims)
    (h : parseATProtoClaims jwt = ParseOutcome.ok claims) :
    claims.expiresAt ≠ 0 := by
  unfold parseATProtoClaims at h
  split at h
  · split at h
    · cases h
    · split at h
      · cases h
      · split at h
        · cases h
        · rename_i hz
          cases h
          exact hz
  · cases h

/-- Frame property of the executor: every returned error leaves the
session state exactly as it was. -/
theorem refreshJWT_failure_frame (st : ClientState) (now : Int)
    (resp : Except String SessionResponse) (st2 : ClientState) (e : BskyError)
    (he : refreshJWT st now resp = some (st2, some e)) : st2 = st := by
  unfold refreshJWT at he
  split at he
  · simp only [Option.some.injEq, Prod.mk.injEq] at he
    exact he.1.symm
  · split at he
    · simp only [Option.some.injEq, Prod.mk.injEq] at he
      exact he.1.symm
    · split at he
      · cases he
      · simp only [Option.some.injEq, Prod.mk.injEq] at he
        exact he.1.symm
      · split at he
        · cases he
        · simp only [Option.some.injEq, Prod.mk.injEq] at he
          exact he.1.symm
        · simp only [Option.some.injEq, Prod.mk.injEq] at he
          cases he.2

/-- The executor returns its wrapped session-expired error exactly when
the refresh token's expiry is strictly before the clock read taken under
the lock. -/
theorem refreshJWT_sessionExpired_iff (st : ClientState) (now : Int)
    (resp : Except String SessionResponse) :
    (∃ v, refreshJWT st now resp =
        some (st, some (BskyError.sessionExpiredWrapped v))) ↔
      st.refreshJwtExpire < now := by
  constructor
  · rintro ⟨v, hv⟩
    by_contra h
    unfold refreshJWT at hv
    rw [if_neg h] at hv
    split at hv
    · simp only [Option.some.injEq, Prod.mk.injEq] at hv
      cases hv.2
    · split at hv
      · cases hv
      · rename_i heq
        simp only [Option.some.injEq, Prod.mk.injEq] at hv
        rw [hv.2] at heq
        rcases parseATProtoClaims_err_cases _ _ heq with h1 | h1 | h1 <;> cases h1
      · split at hv
        · cases hv
        · rename_i heq
          simp only [Option.some.injEq, Prod.mk.injEq] at hv
          rw [hv.2] at heq
          rcases parseATProtoClaims_err_cases _ _ heq with h1 | h1 | h1 <;> cases h1
        · simp only [Option.some.injEq, Prod.mk.injEq] at hv
          cases hv.2
  · intro h
    refine ⟨st.refreshJwtExpire, ?_⟩
    unfold refreshJWT
    rw [if_pos h]

/-- When the policy decision is the async one, the check leaves the
state untouched. -/
theorem maybeRefreshCheck_async_snd (st : ClientState) (now : Int)
    (h : (maybeRefreshCheck st now).1 = RefreshAction.asyncRefresh) :
    maybeRefreshCheck st now = (RefreshAction.asyncRefresh, st) := by
  simp only [maybeRefreshCheck] at h ⊢
  split_ifs at h ⊢
  rfl

/-- Invariant of the single-flight guard: the number of running
background refresh goroutines equals the channel occupancy. -/
def asyncInv (s : AsyncGuardState) : Prop :=
  s.inflight = if s.guardHeld then 1 else 0

/-- The invariant is preserved by every event. -/
theorem asyncStep_inv (s : AsyncGuardState) (ev : AsyncEvent)
    (h : asyncInv s) : asyncInv (asyncStep s ev) := by
  unfold asyncInv at h ⊢
  cases ev with
  | trigger =>
    by_cases hg : s.guardHeld <;> simp [asyncStep, hg] at h ⊢ <;> omega
  | complete b =>
    by_cases hg : s.guardHeld
    · simp [hg] at h
      simp [asyncStep, h, hg]
    · simp [hg] at h
      simp [asyncStep, h, hg]

/-- The invariant holds in every reachable guard state. -/
theorem asyncRun_inv (events : List AsyncEvent) : asyncInv (asyncRun events) := by
  unfold asyncRun
  have h : ∀ s : AsyncGuardState, asyncInv s → asyncInv (events.foldl asyncStep s) := by
    induction events with
    | nil => intro s hs; exact hs
    | cons e t ih => intro s hs; exact ih _ (asyncStep_inv s e hs)
  exact h asyncInit (by unfold asyncInv asyncInit; simp)

/-- `Duration.Microseconds()` is zero exactly for durations of magnitude
under one microsecond. -/
theorem tdiv1000_eq_zero_iff (d : Int) :
    Int.tdiv d 1000 = 0 ↔ -1000 < d ∧ d < 1000 := by
  rcases d with n | n
  · show Int.ofNat (n / 1000) = 0 ↔ _
    simp only [Int.ofNat_eq_natCast]
    constructor
    · intro h
      have hz : n / 1000 = 0 := by exact_mod_cast h
      omega
    · intro h
      have h1 : n < 1000 := by omega
      have hz : n / 1000 = 0 := by omega
      simp [hz]
  · show -Int.ofNat (n.succ / 1000) = 0 ↔ _
    simp only [Int.ofNat_eq_natCast, neg_eq_zero]
    constructor
    · intro h
      have hz : n.succ / 1000 = 0 := by exact_mod_cast h
      simp [Int.negSucc_eq]
      omega
    · intro h
      simp [Int.negSucc_eq] at h
      have hz : n.succ / 1000 = 0 := by omega
      simp [hz]

/-- The executor can never return the master-credentials rejection: it
parses both returned tokens with the unchecked parser. -/
theorem refreshJWT_ne_masterCredentials (st : ClientState) (now : Int)
    (resp : Except String SessionResponse) (st2 : ClientState) :
    refreshJWT st now resp ≠
      some (st2, some BskyError.masterCredentialsRejected) := by
  intro hv
  unfold refreshJWT at hv
  split at hv
  · simp only [Option.some.injEq, Prod.mk.injEq] at hv
    cases hv.2
  · split at hv
    · simp only [Option.some.injEq, Prod.mk.injEq] at hv
      cases hv.2
    · split at hv
      · cases hv
      · rename_i heq
        simp only [Option.some.injEq, Prod.mk.injEq] at hv
        rw [hv.2] at heq
        exact parseATProtoClaims_ne_masterCredentials _ heq
      · split at hv
        · cases hv
        · rename_i heq
          simp only [Option.some.injEq, Prod.mk.injEq] at hv
          rw [hv.2] at heq
          exact parseATProtoClaims_ne_masterCredentials _ heq
        · simp only [Option.some.injEq, Prod.mk.injEq] at hv
          cases hv.2

/-- C1 counterexample: at `now = 0` with `refreshJwtExpire = 0` (so
refreshExpiry ≤ now holds) and the access token one minute from expiry
(inside both refresh windows), the decision is SYNC — a blocking refresh
attempt — not EXPIRED: the code's `refreshJwtExpire.Before(now)` test is
strict, so the boundary instant `refreshExpiry = now` is not classified
as expired, refuting the claim's non-strict characterization. -/
theorem C1_counterexample :
    c1State.refreshJwtExpire ≤ 0 ∧
    c1State.accessJwtExpire - 0 < jwtAsyncRefreshThreshold ∧
    (maybeRefreshCheck c1State 0).1 = RefreshAction.syncRefresh ∧
    (maybeRefreshCheck c1State 0).1 ≠ RefreshAction.expired := by decide

/-- C1 (amended): with the default windows, the decision of
`maybeRefreshJWT` is EXPIRED iff `refreshExpiry < now` (strictly
before, and then the manager is marked not ready); otherwise SYNC iff
`accessExpiry - now < 2 minutes`; otherwise ASYNC iff
`accessExpiry - now < 5 minutes`; otherwise no action. -/
theorem C1_policy_decision (st : ClientState) (now : Int) :
    ((maybeRefreshCheck st now).1 = RefreshAction.expired ↔
      st.refreshJwtExpire < now) ∧
    ((maybeRefreshCheck st now).1 = RefreshAction.expired →
      (maybeRefreshCheck st now).2.ready = false) ∧
    ((maybeRefreshCheck st now).1 = RefreshAction.syncRefresh ↔
      ¬st.refreshJwtExpire < now ∧
        st.accessJwtExpire - now < jwtSyncRefreshThreshold) ∧
    ((maybeRefreshCheck st now).1 = RefreshAction.asyncRefresh ↔
      ¬st.refreshJwtExpire < now ∧
        ¬st.accessJwtExpire - now < jwtSyncRefreshThreshold ∧
        st.accessJwtExpire - now < jwtAsyncRefreshThreshold) ∧
    ((maybeRefreshCheck st now).1 = RefreshAction.noAction ↔
      ¬st.refreshJwtExpire < now ∧
        ¬st.accessJwtExpire - now < jwtAsyncRefreshThreshold) := by
  have hlt : jwtSyncRefreshThreshold < jwtAsyncRefreshThreshold := by decide
  simp only [maybeRefreshCheck]
  by_cases h1 : st.refreshJwtExpire < now <;>
    by_cases h2 : st.accessJwtExpire - now < jwtSyncRefreshThreshold <;>
    by_cases h3 : st.accessJwtExpire - now < jwtAsyncRefreshThreshold <;>
    simp [h1, h2, h3] <;> omega

/-- C2: the claims parser is not total — a token with no dot at all
splits into a single segment and the unchecked index `parts[1]` panics
(index out of range) instead of returning a malformed-token error, on
all three parsing entry points. -/
theorem C2_dotless_token_panics :
    splitOnDot "abc".data = ["abc".data] ∧
    parseATProtoClaims "abc" = ParseOutcome.panicked ∧
    parseAccessJwtClaims "abc" = ParseOutcome.panicked ∧
    parseRefreshJwtClaims "abc" = ParseOutcome.panicked := by decide

/-- C3 counterexample: a successful refresh whose returned access token
carries scope "x" (not the application-password tag) does not fail with
the master-credentials rejection — it succeeds and replaces the whole
session state, because `refreshJWT` parses the access token with the
unchecked `parseATProtoClaims`, not `parseAccessJwtClaims`. -/
theorem C3_counterexample :
    parseATProtoClaims tokenScopeX = ParseOutcome.ok claimsScopeX ∧
    claimsScopeX.scope ≠ "com.atproto.appPass" ∧
    refreshJWT c3State 0 (Except.ok c3Response) = some (c3PostState, none) ∧
    c3PostState.auth ≠ c3State.auth := by decide

/-- C3 (amended): the executor parses both returned tokens with the
unchecked parser, so every refresh whose tokens parse — whatever their
scopes — succeeds and atomically replaces the session state, and the
executor can never fail with the master-credentials rejection. -/
theorem C3_refresh_parses_both_tokens_unchecked (st : ClientState) (now : Int)
    (sess : SessionResponse) (ca cr : atProtoClaims)
    (hnotexp : ¬st.refreshJwtExpire < now)
    (ha : parseATProtoClaims sess.accessJwt = ParseOutcome.ok ca)
    (hr : parseATProtoClaims sess.refreshJwt = ParseOutcome.ok cr) :
    refreshJWT st now (Except.ok sess) =
      some
        ({ st with
           auth := some
             { accessJwt := sess.accessJwt, refreshJwt := sess.refreshJwt,
               handle := sess.handle, did := sess.did },
           accessJwtExpire := unixToNs ca.expiresAt,
           refreshJwtExpire := unixToNs cr.expiresAt }, none) ∧
    (∀ (now2 : Int) (resp2 : Except String SessionResponse) (st2 : ClientState),
      refreshJWT st now2 resp2 ≠
        some (st2, some BskyError.masterCredentialsRejected)) := by
  constructor
  · unfold refreshJWT
    rw [if_neg hnotexp]
    simp only [hr, ha]
  · intro now2 resp2 st2
    exact refreshJWT_ne_masterCredentials st now2 resp2 st2

/-- C3 witness: the amended theorem applied to the concrete state and
reply with scope-"x" tokens. -/
theorem C3_amended_witness :
    refreshJWT c3State 0 (Except.ok c3Response) = some (c3PostState, none) :=
  (C3_refresh_parses_both_tokens_unchecked c3State 0 c3Response claimsScopeX
    claimsScopeX (by decide) (by decide) (by decide)).1

/-- C4: the session-expired error raised by the executor's under-lock
re-check is the wrapped error, which fails the loop's identity
comparison `err == ErrSessionExpired`, so the loop continues and the
client stays ready — contradicting the claim for the executor path —
while the policy pre-check path (which returns the bare sentinel) does
terminate the loop and clears readiness.  Failing input: both
expirations at instant 0, loop check at `now = 0`, executor re-check at
`now = 1`. -/
theorem C4_wrapped_expiry_does_not_stop_loop :
    refreshJWT c4State 1 (Except.error "transport unused") =
      some (c4State, some (BskyError.sessionExpiredWrapped 0)) ∧
    refresherStep c4State 0 1 (Except.error "transport unused") false =
      LoopOutcome.continues c4State ∧
    c4State.ready = true ∧
    refresherStep { c4State with refreshJwtExpire := -1 } 0 0
        (Except.error "transport unused") false =
      LoopOutcome.terminatedExpired
        { c4State with refreshJwtExpire := -1, ready := false } := by decide

/-- C5 counterexample: with `refreshExpiry = now` (so refreshExpiry ≤
now holds) the executor does not fail with the session-expired error —
the strict `Now().After(refreshJwtExpire)` re-check passes and the
transport error is propagated instead, refuting the claim's non-strict
"iff refreshExpiry ≤ now". -/
theorem C5_counterexample :
    c4State.refreshJwtExpire ≤ 0 ∧
    refreshJWT c4State 0 (Except.error "boom") =
      some (c4State, some (BskyError.transportError "boom")) := by decide

/-- C5 (amended): the executor fails with its (wrapped) session-expired
error iff, re-checked under the exclusive lock, `refreshExpiry < now`
strictly; and on every failure path the session state — credential
slot, both stored expirations, identity — is left exactly as it was. -/
theorem C5_executor_recheck_and_frame (st : ClientState) (now : Int)
    (resp : Except String SessionResponse) :
    ((∃ v, refreshJWT st now resp =
        some (st, some (BskyError.sessionExpiredWrapped v))) ↔
      st.refreshJwtExpire < now) ∧
    (∀ (st2 : ClientState) (e : BskyError),
      refreshJWT st now resp = some (st2, some e) → st2 = st) :=
  ⟨refreshJWT_sessionExpired_iff st now resp,
   fun st2 e he => refreshJWT_failure_frame st now resp st2 e he⟩

/-- C6: a well-formed token whose claims carry a scope other than
"com.atproto.appPass" (and, as every successfully parsed token, a
non-zero expiration) is rejected with the master-credentials error by
the access-token parser, while the refresh-token parser accepts the
identical token and returns the same claims. -/
theorem C6_scope_check_access_path_only (jwt : String) (claims : atProtoClaims)
    (hparse : parseATProtoClaims jwt = ParseOutcome.ok claims)
    (hscope : claims.scope ≠ "com.atproto.appPass") :
    parseAccessJwtClaims jwt =
      ParseOutcome.err BskyError.masterCredentialsRejected ∧
    parseRefreshJwtClaims jwt = ParseOutcome.ok claims ∧
    claims.expiresAt ≠ 0 := by
  refine ⟨?_, hparse, parseATProtoClaims_ok_exp_ne_zero jwt claims hparse⟩
  unfold parseAccessJwtClaims
  rw [hparse]
  simp [hscope]

/-- C6 witness: the concrete scope-"x" token. -/
theorem C6_witness :
    parseAccessJwtClaims tokenScopeX =
      ParseOutcome.err BskyError.masterCredentialsRejected ∧
    parseRefreshJwtClaims tokenScopeX = ParseOutcome.ok claimsScopeX ∧
    claimsScopeX.expiresAt ≠ 0 :=
  C6_scope_check_access_path_only tokenScopeX claimsScopeX (by decide) (by decide)

/-- C7: `Close()` always returns nil; the first call clears the ready
flag and the stop handle, and a second call performs no second shutdown
handshake, still returns nil, and leaves the client not ready. -/
theorem C7_close_idempotent (st : ClientState) :
    (closeClient st).2.1 = none ∧
    (closeClient st).1.ready = false ∧
    (closeClient st).1.refresherStop = false ∧
    (closeClient (closeClient st).1).2.2 = false ∧
    (closeClient (closeClient st).1).2.1 = none ∧
    (closeClient (closeClient st).1).1.ready = false := by
  by_cases h : st.refresherStop <;> simp [closeClient, h]

/-- C8: single-flight of background refreshes.  In every reachable
guard state at most one background refresh is in flight; a trigger with
the guard held skips without spawning; completion — success or failure
alike — releases the guard and spawns nothing; the spawned goroutine's
body always ends with the guard released; the async branch of
`maybeRefreshJWT` spawns exactly when the guard channel is empty; and
in the concrete scenario two triggers before completion spawn one
refresh call, with one more after completion. -/
theorem C8_single_flight_guard :
    (∀ events : List AsyncEvent, (asyncRun events).inflight ≤ 1) ∧
    (∀ s : AsyncGuardState, s.guardHeld = true →
      asyncStep s AsyncEvent.trigger = s) ∧
    (∀ s : AsyncGuardState, s.guardHeld = false →
      asyncStep s AsyncEvent.trigger =
        { guardHeld := true, inflight := s.inflight + 1,
          spawned := s.spawned + 1 }) ∧
    (∀ (s : AsyncGuardState) (success : Bool), s.inflight ≠ 0 →
      (asyncStep s (AsyncEvent.complete success)).guardHeld = false ∧
      (asyncStep s (AsyncEvent.complete success)).spawned = s.spawned) ∧
    (∀ (st : ClientState) (now : Int) (resp : Except String SessionResponse)
        (st2 : ClientState),
      asyncRefreshTask st now resp = some st2 → st2.asyncRefreshBusy = false) ∧
    (∀ (st : ClientState) (now refreshNow : Int)
        (resp : Except String SessionResponse),
      (maybeRefreshCheck st now).1 = RefreshAction.asyncRefresh →
      (st.asyncRefreshBusy = true →
        maybeRefreshJWT st now refreshNow resp = some (st, none, false)) ∧
      (st.asyncRefreshBusy = false →
        maybeRefreshJWT st now refreshNow resp =
          some ({ st with asyncRefreshBusy := true }, none, true))) ∧
    asyncRun [AsyncEvent.trigger, AsyncEvent.trigger] =
      { guardHeld := true, inflight := 1, spawned := 1 } ∧
    asyncRun [AsyncEvent.trigger, AsyncEvent.trigger, AsyncEvent.complete true,
        AsyncEvent.trigger] =
      { guardHeld := true, inflight := 1, spawned := 2 } ∧
    asyncRun [AsyncEvent.trigger, AsyncEvent.trigger, AsyncEvent.complete false,
        AsyncEvent.trigger] =
      { guardHeld := true, inflight := 1, spawned := 2 } := by
  refine ⟨?_, ?_, ?_, ?_, ?_, ?_, by decide, by decide, by decide⟩
  · intro events
    have h := asyncRun_inv events
    unfold asyncInv at h
    by_cases hg : (asyncRun events).guardHeld <;> simp [hg] at h <;> omega
  · intro s hg
    simp [asyncStep, hg]
  · intro s hg
    simp [asyncStep, hg]
  · intro s success hne
    simp [asyncStep, hne]
  · intro st now resp st2 h
    unfold asyncRefreshTask at h
    split at h
    · cases h
    · injection h with h2
      subst h2
      rfl
  · intro st now refreshNow resp hasync
    have heq := maybeRefreshCheck_async_snd st now hasync
    constructor
    · intro hb
      unfold maybeRefreshJWT
      rw [heq]
      simp [hb]
    · intro hb
      unfold maybeRefreshJWT
      rw [heq]
      simp [hb]

/-- C9 counterexample: the pause `-1000` nanoseconds (one negative
microsecond) is strictly less than one microsecond, yet its
whole-microsecond count is `-1`, not zero, so `NewClient` keeps it as
given instead of replacing it with the 5-minute default. -/
theorem C9_counterexample :
    (-1000 : Int) < 1000 ∧
    goDurationMicroseconds (-1000) ≠ 0 ∧
    newClientRefresherPause (-1000) = -1000 ∧
    ((-1000 : Int) ≠ 5 * nsPerMinute) := by decide

/-- C9 (amended): `NewClient` replaces the configured pause with the
5-minute default exactly when its magnitude is under one microsecond
(whole-microsecond count zero, i.e. strictly between -1µs and 1µs);
every pause of magnitude one microsecond or more — positive or
negative — is used exactly as given. -/
theorem C9_pause_defaulting (d : Int) :
    newClientRefresherPause d =
      if -1000 < d ∧ d < 1000 then 300000000000 else d := by
  by_cases h : -1000 < d ∧ d < 1000
  · rw [if_pos h]
    unfold newClientRefresherPause goDurationMicroseconds
    rw [if_pos ((tdiv1000_eq_zero_iff d).mpr h)]
    decide
  · rw [if_neg h]
    unfold newClientRefresherPause goDurationMicroseconds
    rw [if_neg (fun hc => h ((tdiv1000_eq_zero_iff d).mp hc))]

/-- C10: a client built by `DialWithClient` (and hence by `Dial`, which
delegates to it) is not ready, holds no credentials and no expirations,
has no refresher running, and `Close()` on it returns nil without
performing a shutdown handshake and without changing the state. -/
theorem C10_dial_gives_bare_client (d : Except String Unit) (st : ClientState)
    (h : dialWithClient d = some st) :
    clientReady st = false ∧ st.auth = none ∧ st.refresherStop = false ∧
    st.accessJwtExpire = 0 ∧ st.refreshJwtExpire = 0 ∧
    closeClient st = (st, none, false) := by
  cases d with
  | error msg => cases h
  | ok u =>
    have hst : st = dialedState := by
      unfold dialWithClient at h
      injection h with h2
      exact h2.symm
    subst hst
    refine ⟨rfl, rfl, rfl, rfl, rfl, rfl⟩

/-- C10 witness: the bare client obtained from a successful
connectivity check. -/
theorem C10_witness :
    clientReady dialedState = false ∧ dialedState.auth = none ∧
    dialedState.refresherStop = false ∧ dialedState.accessJwtExpire = 0 ∧
    dialedState.refreshJwtExpire = 0 ∧
    closeClient dialedState = (dialedState, none, false) :=
  C10_dial_gives_bare_client (Except.ok ()) dialedState (by decide)
